import Mathlib

/-!
Shallow embedding of the UI progress-reporting layer of task-maker-rust
(`task-maker-format/src/ui/mod.rs`): the lifecycle vocabulary
(`UIExecutionStatus`), the per-file compilation status aggregator
(`CompilationStatus` with `apply_status` / `apply_stdout` / `apply_stderr`),
the front-end selector (`UIType::from_str`), the message union (`UIMessage`)
with a field-tagged serialization model, and an operational model of the
multi-producer single-consumer event channel.
-/

/-- Modelled from the spec: the success/failure indicator inside the opaque
outcome record produced by the external execution engine (`ExecutionStatus`
from the `task-maker-dag` crate, whose sources are not part of this
repository). The aggregator only distinguishes `Success` from everything
else, so non-success outcomes are collapsed into one constructor carrying an
opaque description. -/
inductive ExecutionStatus where
  | Success
  | Failure (reason : String)
deriving DecidableEq, Repr

/-- Modelled from the spec: `ExecutionResult` is the opaque outcome record of
the external execution engine (`task-maker-dag` crate, not in this
repository's sources); per the spec it carries a success/failure indicator
and resource-usage data (modelled opaquely as a natural number). -/
structure ExecutionResult where
  status : ExecutionStatus
  resources : Nat
deriving DecidableEq, Repr

/-- Modelled from the spec: `WorkerUuid` is an opaque external identifier for
the worker that claimed a unit of work; modelled as a natural number. -/
abbrev WorkerUuid := Nat

/-- The status of an execution (`UIExecutionStatus` in
`task-maker-format/src/ui/mod.rs`). -/
inductive UIExecutionStatus where
  | Pending
  | Started (worker : WorkerUuid)
  | Done (result : ExecutionResult)
  | Skipped
deriving DecidableEq, Repr

/-- The status of the compilation of a file (`CompilationStatus` in
`task-maker-format/src/ui/mod.rs`). -/
inductive CompilationStatus where
  | Pending
  | Running
  | Done (result : ExecutionResult) (stdout : Option String) (stderr : Option String)
  | Failed (result : ExecutionResult) (stdout : Option String) (stderr : Option String)
  | Skipped
deriving DecidableEq, Repr

/-- `CompilationStatus::apply_status`: apply to a `CompilationStatus` a new
`UIExecutionStatus`. The Rust method mutates `self`; here it returns the new
state. -/
def CompilationStatus.apply_status (_self : CompilationStatus)
    (status : UIExecutionStatus) : CompilationStatus :=
  match status with
  | .Pending => .Pending
  | .Started _ => .Running
  | .Done result =>
    match result.status with
    | .Success => .Done result none none
    | _ => .Failed result none none
  | .Skipped => .Skipped

/-- `CompilationStatus::apply_stdout`: set the standard output of the
compilation. `stdout.replace(content)` stores `Some(content)`. -/
def CompilationStatus.apply_stdout (self : CompilationStatus)
    (content : String) : CompilationStatus :=
  match self with
  | .Done result _ stderr => .Done result (some content) stderr
  | .Failed result _ stderr => .Failed result (some content) stderr
  | other => other

/-- `CompilationStatus::apply_stderr`: set the standard error of the
compilation. -/
def CompilationStatus.apply_stderr (self : CompilationStatus)
    (content : String) : CompilationStatus :=
  match self with
  | .Done result stdout _ => .Done result stdout (some content)
  | .Failed result stdout _ => .Failed result stdout (some content)
  | other => other

/-- The coarse phase of a `CompilationStatus` aggregate, forgetting the
stored result and the text buffers. -/
inductive Phase where
  | pending
  | running
  | done
  | failed
  | skipped
deriving DecidableEq, Repr

/-- The phase of a compilation aggregate state. -/
def CompilationStatus.phase : CompilationStatus → Phase
  | .Pending => .pending
  | .Running => .running
  | .Done _ _ _ => .done
  | .Failed _ _ _ => .failed
  | .Skipped => .skipped

/-- Terminal phases of the aggregate. -/
def Phase.terminal : Phase → Bool
  | .done => true
  | .failed => true
  | .skipped => true
  | _ => false

/-- The sequence of aggregate states observed after each lifecycle event,
folding `apply_status` from the given initial state. -/
def CompilationStatus.states_after :
    CompilationStatus → List UIExecutionStatus → List CompilationStatus
  | _, [] => []
  | s, e :: es =>
    CompilationStatus.apply_status s e ::
      CompilationStatus.states_after (CompilationStatus.apply_status s e) es

/-- An in-order lifecycle event sequence for a single unit: a possibly
incomplete prefix of `Pending → Started → (Done | Skipped)`, with no further
lifecycle event after a terminal one. -/
inductive InOrderLifecycle : List UIExecutionStatus → Prop
  | nil : InOrderLifecycle []
  | pending : InOrderLifecycle [.Pending]
  | started (w : WorkerUuid) : InOrderLifecycle [.Pending, .Started w]
  | done (w : WorkerUuid) (r : ExecutionResult) :
      InOrderLifecycle [.Pending, .Started w, .Done r]
  | skipped (w : WorkerUuid) : InOrderLifecycle [.Pending, .Started w, .Skipped]

/-- Relabelling of worker identifiers inside a lifecycle event; every other
event is left unchanged. -/
def UIExecutionStatus.relabel_worker (f : WorkerUuid → WorkerUuid) :
    UIExecutionStatus → UIExecutionStatus
  | .Started w => .Started (f w)
  | other => other

/-- C1: `apply_status` maps, for every prior state, `Pending` to `Pending`,
`Started{w}` to `Running` for any worker, `Done{result}` to
`Done{result, stdout unset, stderr unset}` when the result's status is a
success and to `Failed{result, stdout unset, stderr unset}` otherwise, and
`Skipped` to `Skipped`. -/
theorem apply_status_maps_lifecycle (s : CompilationStatus) (w : WorkerUuid)
    (r : ExecutionResult) :
    CompilationStatus.apply_status s .Pending = CompilationStatus.Pending ∧
    CompilationStatus.apply_status s (.Started w) = CompilationStatus.Running ∧
    CompilationStatus.apply_status s (.Done r) =
      (if r.status = ExecutionStatus.Success
        then CompilationStatus.Done r none none
        else CompilationStatus.Failed r none none) ∧
    CompilationStatus.apply_status s .Skipped = CompilationStatus.Skipped := by
  refine ⟨rfl, rfl, ?_, rfl⟩
  rcases r with ⟨st, res⟩
  cases st <;> simp [CompilationStatus.apply_status]

/-- C2: `apply_status` is total over the lifecycle shapes and its result does
not depend on the prior state; in particular it is idempotent, and a
`Pending` arriving after any state (terminal `Done`/`Skipped` included)
resets the aggregate to `Pending`. -/
theorem apply_status_last_write_wins :
    (∀ (s1 s2 : CompilationStatus) (l : UIExecutionStatus),
      CompilationStatus.apply_status s1 l = CompilationStatus.apply_status s2 l) ∧
    (∀ (s : CompilationStatus) (l : UIExecutionStatus),
      CompilationStatus.apply_status (CompilationStatus.apply_status s l) l =
        CompilationStatus.apply_status s l) ∧
    (∀ (s : CompilationStatus),
      CompilationStatus.apply_status s .Pending = CompilationStatus.Pending) := by
  refine ⟨fun s1 s2 l => ?_, fun s l => ?_, fun s => rfl⟩
  · cases l <;> rfl
  · cases l <;> rfl

/-- C3: on a `Done` or `Failed` aggregate, `apply_stdout` sets exactly the
stdout buffer to the provided text (overwriting any prior value, including
with the empty string), leaving the phase, the stored result and the stderr
buffer unchanged; `apply_stderr` symmetrically sets exactly the stderr
buffer. -/
theorem apply_stdout_stderr_set_exactly_target (r : ExecutionResult)
    (so se : Option String) (c : String) :
    CompilationStatus.apply_stdout (.Done r so se) c =
      CompilationStatus.Done r (some c) se ∧
    CompilationStatus.apply_stdout (.Failed r so se) c =
      CompilationStatus.Failed r (some c) se ∧
    CompilationStatus.apply_stderr (.Done r so se) c =
      CompilationStatus.Done r so (some c) ∧
    CompilationStatus.apply_stderr (.Failed r so se) c =
      CompilationStatus.Failed r so (some c) :=
  ⟨rfl, rfl, rfl, rfl⟩

/-- C4: on a `Pending`, `Running` or `Skipped` aggregate, `apply_stdout` and
`apply_stderr` are silent no-ops: the state is returned unchanged and, the
functions being total with no error component in their type, no error is
signaled. -/
theorem apply_stdout_stderr_silent_noop (c : String) :
    CompilationStatus.apply_stdout .Pending c = CompilationStatus.Pending ∧
    CompilationStatus.apply_stdout .Running c = CompilationStatus.Running ∧
    CompilationStatus.apply_stdout .Skipped c = CompilationStatus.Skipped ∧
    CompilationStatus.apply_stderr .Pending c = CompilationStatus.Pending ∧
    CompilationStatus.apply_stderr .Running c = CompilationStatus.Running ∧
    CompilationStatus.apply_stderr .Skipped c = CompilationStatus.Skipped :=
  ⟨rfl, rfl, rfl, rfl, rfl, rfl⟩

/-- C5: folding `apply_status` from the initial `Pending` aggregate over any
in-order lifecycle sequence yields a phase trace that is a prefix of
`pending → running → t` for some terminal phase `t`: no phase recurs after a
terminal phase and `running` never precedes `pending`. -/
theorem in_order_fold_phase_trace (l : List UIExecutionStatus)
    (h : InOrderLifecycle l) :
    ∃ t : Phase, t.terminal = true ∧
      ∃ rest : List Phase,
        (CompilationStatus.states_after .Pending l).map CompilationStatus.phase
          ++ rest = [Phase.pending, Phase.running, t] := by
  cases h with
  | nil => exact ⟨.done, rfl, [.pending, .running, .done], rfl⟩
  | pending => exact ⟨.done, rfl, [.running, .done], rfl⟩
  | started w => exact ⟨.done, rfl, [.done], rfl⟩
  | done w r =>
    rcases r with ⟨st, res⟩
    cases st with
    | Success => exact ⟨.done, rfl, [], rfl⟩
    | Failure reason => exact ⟨.failed, rfl, [], rfl⟩
  | skipped w => exact ⟨.skipped, rfl, [], rfl⟩

/-- Witness for C5 at the concrete in-order sequence
`[Pending, Started 3, Skipped]`. -/
theorem in_order_fold_phase_trace_witness :
    InOrderLifecycle [UIExecutionStatus.Pending, .Started 3, .Skipped] ∧
    (∃ t : Phase, t.terminal = true ∧
      ∃ rest : List Phase,
        (CompilationStatus.states_after .Pending
            [UIExecutionStatus.Pending, .Started 3, .Skipped]).map
          CompilationStatus.phase ++ rest =
            [Phase.pending, Phase.running, t]) :=
  ⟨InOrderLifecycle.skipped 3,
   in_order_fold_phase_trace _ (InOrderLifecycle.skipped 3)⟩

/-- C10: the aggregate never records the worker identity: a `Started` event
yields the same state for any two workers, and more generally any fold of
`apply_status` is invariant under arbitrary relabelling of the worker
identifiers in the event stream. -/
theorem compilation_status_worker_independence :
    (∀ (s : CompilationStatus) (w1 w2 : WorkerUuid),
      CompilationStatus.apply_status s (.Started w1) =
        CompilationStatus.apply_status s (.Started w2)) ∧
    (∀ (f : WorkerUuid → WorkerUuid) (l : List UIExecutionStatus)
        (s : CompilationStatus),
      List.foldl CompilationStatus.apply_status s
          (l.map (UIExecutionStatus.relabel_worker f)) =
        List.foldl CompilationStatus.apply_status s l) := by
  refine ⟨fun s w1 w2 => rfl, fun f l => ?_⟩
  induction l with
  | nil => intro s; rfl
  | cons e es ih =>
    intro s
    have hstep : CompilationStatus.apply_status s
        (UIExecutionStatus.relabel_worker f e) =
          CompilationStatus.apply_status s e := by
      cases e <;> rfl
    simp [List.foldl, hstep, ih]

/-- Rust's `char::to_ascii_lowercase`: converts ASCII uppercase letters to
their lowercase counterpart and leaves every other character unchanged. -/
def Char.to_ascii_lowercase (c : Char) : Char :=
  if 'A' ≤ c ∧ c ≤ 'Z' then Char.ofNat (c.toNat + 32) else c

/-- Rust's `str::to_ascii_lowercase` applied characterwise. -/
def String.to_ascii_lowercase (s : String) : String :=
  ⟨s.data.map Char.to_ascii_lowercase⟩

/-- The type of the UI to use (`UIType` in
`task-maker-format/src/ui/mod.rs`). -/
inductive UIType where
  | Print
  | Raw
  | Curses
  | Json
  | Silent
deriving DecidableEq, Repr

/-- `impl FromStr for UIType`: matches the ASCII-lowercased input against the
five known names, otherwise returns `Err(format!("Unknown ui: {}", s))`. -/
def UIType.from_str (s : String) : Except String UIType :=
  let lower := s.to_ascii_lowercase
  if lower = "print" then .ok .Print
  else if lower = "raw" then .ok .Raw
  else if lower = "curses" then .ok .Curses
  else if lower = "json" then .ok .Json
  else if lower = "silent" then .ok .Silent
  else .error ("Unknown ui: " ++ s)

/-- `PathBuf` coordinates are carried as opaque path strings. -/
abbrev PathBuf := String

/-- `SubtaskId` (`crate::ioi`): a small numeric subtask identifier. -/
abbrev SubtaskId := Nat

/-- `TestcaseId` (`crate::ioi`): a small numeric testcase identifier. -/
abbrev TestcaseId := Nat

/-- Modelled from the spec: `Seed` (`crate::terry`) is the opaque numeric
seed used to generate an input file. -/
abbrev Seed := Nat

/-- Modelled from the spec: the opaque executor status payload
(`ExecutorStatus<SystemTime>` from the external `task-maker-exec` crate);
this layer only threads it through. -/
structure ExecutorStatus where
  data : Nat
deriving DecidableEq, Repr

/-- Modelled from the spec: the opaque task description of the
subtask/testcase family (`ioi::Task`, produced by an external loader,
boxed because it is large). -/
structure IoiTaskData where
  raw : String
deriving DecidableEq, Repr

/-- Modelled from the spec: the opaque task description of the solution/seed
family (`terry::Task`, produced by an external loader, boxed because it is
large). -/
structure TerryTaskData where
  raw : String
deriving DecidableEq, Repr

/-- Modelled from the spec: the opaque validated outcome of a solution in the
solution/seed family (`terry::SolutionOutcome`, external). -/
structure SolutionOutcome where
  raw : String
deriving DecidableEq, Repr

/-- Modelled from the spec: an IEEE-754 double score payload, carried
opaquely as its 64-bit pattern — this layer never computes with scores, it
only threads them through. -/
structure F64 where
  bits : Nat
deriving DecidableEq, Repr

deriving instance DecidableEq for Except

/-- A message sent to the UI (`UIMessage` in
`task-maker-format/src/ui/mod.rs`), with its 25 cases and their payloads. -/
inductive UIMessage where
  | StopUI
  | ServerStatus (status : ExecutorStatus)
  | Compilation (file : PathBuf) (status : UIExecutionStatus)
  | CompilationStdout (file : PathBuf) (content : String)
  | CompilationStderr (file : PathBuf) (content : String)
  | IOITask (task : IoiTaskData)
  | IOIGeneration (subtask : SubtaskId) (testcase : TestcaseId)
      (status : UIExecutionStatus)
  | IOIGenerationStderr (subtask : SubtaskId) (testcase : TestcaseId)
      (content : String)
  | IOIValidation (subtask : SubtaskId) (testcase : TestcaseId)
      (status : UIExecutionStatus)
  | IOIValidationStderr (subtask : SubtaskId) (testcase : TestcaseId)
      (content : String)
  | IOISolution (subtask : SubtaskId) (testcase : TestcaseId)
      (status : UIExecutionStatus)
  | IOIEvaluation (subtask : SubtaskId) (testcase : TestcaseId)
      (solution : PathBuf) (status : UIExecutionStatus)
  | IOIChecker (subtask : SubtaskId) (testcase : TestcaseId)
      (solution : PathBuf) (status : UIExecutionStatus)
  | IOITestcaseScore (subtask : SubtaskId) (testcase : TestcaseId)
      (solution : PathBuf) (score : F64) (message : String)
  | IOISubtaskScore (subtask : SubtaskId) (solution : PathBuf)
      (normalized_score : F64) (score : F64)
  | IOITaskScore (solution : PathBuf) (score : F64)
  | IOIBooklet (name : String) (status : UIExecutionStatus)
  | IOIBookletDependency (booklet : String) (name : String) (step : Nat)
      (num_steps : Nat) (status : UIExecutionStatus)
  | TerryTask (task : TerryTaskData)
  | TerryGeneration (solution : PathBuf) (seed : Seed)
      (status : UIExecutionStatus)
  | TerryValidation (solution : PathBuf) (status : UIExecutionStatus)
  | TerrySolution (solution : PathBuf) (status : UIExecutionStatus)
  | TerryChecker (solution : PathBuf) (status : UIExecutionStatus)
  | TerrySolutionOutcome (solution : PathBuf)
      (outcome : Except String SolutionOutcome)
  | Warning (message : String)
deriving DecidableEq, Repr

/-- Modelled from the spec: the state of the std `mpsc` channel behind
`UIMessageSender`/`UIChannelSender` (a standard-library primitive, not part
of this repository's sources): an unbounded FIFO queue of messages plus
whether the consuming receiver still exists. -/
structure UIChannel where
  queue : List UIMessage
  receiver_alive : Bool
deriving DecidableEq, Repr

/-- Modelled from the spec: the delivery error returned to the producer when
no consumer remains; like `std::sync::mpsc::SendError` it carries the
undelivered message. -/
structure ChannelSendError where
  message : UIMessage
deriving DecidableEq, Repr

/-- `UIMessageSender::send`: send a message to the channel. Modelled from
the spec: the std channel enqueues when the receiver exists and returns an
error value (not a panic) when no consumer remains; the Rust wrapper only
converts the error type. -/
def UIMessageSender.send (ch : UIChannel) (message : UIMessage) :
    Except ChannelSendError UIChannel :=
  if ch.receiver_alive
  then .ok { ch with queue := ch.queue ++ [message] }
  else .error ⟨message⟩

/-- C7: `send` succeeds exactly while the consuming receiver exists — it then
appends the message to the FIFO queue — and returns an error value carrying
the message exactly when no consumer remains; in neither case is any other
outcome (panic, silent drop) possible, the function being total with these
two result shapes. -/
theorem uimessage_sender_send_spec (ch : UIChannel) (m : UIMessage) :
    ((∃ ch2, UIMessageSender.send ch m = .ok ch2) ↔ ch.receiver_alive = true) ∧
    (ch.receiver_alive = true →
      UIMessageSender.send ch m = .ok ⟨ch.queue ++ [m], true⟩) ∧
    (ch.receiver_alive = false →
      UIMessageSender.send ch m = .error ⟨m⟩) := by
  rcases ch with ⟨q, alive⟩
  cases alive <;> simp [UIMessageSender.send]

/-- Witness for C7 on a live channel and on a closed channel. -/
theorem uimessage_sender_send_spec_witness :
    UIMessageSender.send ⟨[], true⟩ .StopUI = .ok ⟨[.StopUI], true⟩ ∧
    UIMessageSender.send ⟨[], false⟩ .StopUI = .error ⟨.StopUI⟩ :=
  ⟨(uimessage_sender_send_spec ⟨[], true⟩ .StopUI).2.1 rfl,
   (uimessage_sender_send_spec ⟨[], false⟩ .StopUI).2.2 rfl⟩

/-- Modelled from the spec: one send step of the shared channel. Producer
`p`, if it still has pending messages, enqueues its next message at the back
of the FIFO queue, tagged with the producer's identity. -/
def channel_step (pending : Nat → List UIMessage)
    (queue : List (Nat × UIMessage)) (p : Nat) :
    (Nat → List UIMessage) × List (Nat × UIMessage) :=
  match pending p with
  | [] => (pending, queue)
  | m :: rest => (fun q => if q = p then rest else pending q, queue ++ [(p, m)])

/-- Modelled from the spec: run a whole interleaving schedule of producer
identities over the channel; the second component is the exact sequence the
single consumer dequeues (FIFO). -/
def channel_run (sched : List Nat) (pending : Nat → List UIMessage)
    (queue : List (Nat × UIMessage)) :
    (Nat → List UIMessage) × List (Nat × UIMessage) :=
  match sched with
  | [] => (pending, queue)
  | p :: rest => channel_run rest (channel_step pending queue p).1
      (channel_step pending queue p).2

/-- The messages of producer `p`, in the order the consumer receives them. -/
def received_from (queue : List (Nat × UIMessage)) (p : Nat) : List UIMessage :=
  (queue.filter (fun x => x.1 == p)).map Prod.snd

/-- Invariant of the channel run: for each producer, what the consumer has
received from it followed by what it still has pending is constant. -/
theorem channel_run_fifo_invariant (sched : List Nat)
    (pending : Nat → List UIMessage) (queue : List (Nat × UIMessage))
    (p : Nat) :
    received_from (channel_run sched pending queue).2 p ++
        (channel_run sched pending queue).1 p =
      received_from queue p ++ pending p := by
  induction sched generalizing pending queue with
  | nil => rfl
  | cons q rest ih =>
    show received_from (channel_run rest _ _).2 p ++ (channel_run rest _ _).1 p = _
    rw [ih]
    rcases hq : pending q with _ | ⟨m, ms⟩
    · simp [channel_step, hq]
    · by_cases hpq : p = q
      · subst hpq
        simp [channel_step, hq, received_from, List.filter_append]
      · simp [channel_step, hq, received_from, List.filter_append,
          Ne.symm hpq, hpq]

/-- C9: for every set of producers, each with a finite send sequence, and
every interleaving schedule that delivers all of a producer's messages, the
single consumer receives that producer's messages in exactly the relative
order they were sent (per-producer FIFO), whatever the interleaving with the
other producers. -/
theorem channel_per_producer_fifo (sched : List Nat)
    (sends : Nat → List UIMessage) (p : Nat)
    (hcomplete : (channel_run sched sends []).1 p = []) :
    received_from (channel_run sched sends []).2 p = sends p := by
  have h := channel_run_fifo_invariant sched sends [] p
  rw [hcomplete] at h
  simpa [received_from] using h

/-- Witness for C9: two producers, an interleaved schedule, producer 0's two
messages are received in order. -/
theorem channel_per_producer_fifo_witness :
    (channel_run [0, 1, 0, 1]
        (fun p => if p = 0 then [UIMessage.Warning "a", UIMessage.StopUI]
          else if p = 1 then [UIMessage.Warning "b"] else []) []).1 0 = [] ∧
    received_from (channel_run [0, 1, 0, 1]
        (fun p => if p = 0 then [UIMessage.Warning "a", UIMessage.StopUI]
          else if p = 1 then [UIMessage.Warning "b"] else []) []).2 0 =
      (fun p => if p = 0 then [UIMessage.Warning "a", UIMessage.StopUI]
        else if p = 1 then [UIMessage.Warning "b"] else []) 0 :=
  ⟨rfl, channel_per_producer_fifo [0, 1, 0, 1] _ 0 rfl⟩

/-- C6: `UIType::from_str` returns `Ok` exactly when the ASCII-lowercasing
of the input equals one of the five known names, yields the corresponding
variant (so selection is case-insensitive), and on any other input returns
an `Err` whose message contains the original string verbatim. -/
theorem uitype_from_str_spec (s : String) :
    ((∃ t, UIType.from_str s = .ok t) ↔
      s.to_ascii_lowercase ∈ ["print", "raw", "curses", "json", "silent"]) ∧
    (s.to_ascii_lowercase = "print" → UIType.from_str s = .ok .Print) ∧
    (s.to_ascii_lowercase = "raw" → UIType.from_str s = .ok .Raw) ∧
    (s.to_ascii_lowercase = "curses" → UIType.from_str s = .ok .Curses) ∧
    (s.to_ascii_lowercase = "json" → UIType.from_str s = .ok .Json) ∧
    (s.to_ascii_lowercase = "silent" → UIType.from_str s = .ok .Silent) ∧
    (∀ e : String, UIType.from_str s = .error e →
      ∃ pre post : String, e = pre ++ s ++ post) := by
  unfold UIType.from_str
  by_cases h1 : s.to_ascii_lowercase = "print"
  · simp [h1]
  · by_cases h2 : s.to_ascii_lowercase = "raw"
    · simp [h1, h2]
    · by_cases h3 : s.to_ascii_lowercase = "curses"
      · simp [h1, h2, h3]
      · by_cases h4 : s.to_ascii_lowercase = "json"
        · simp [h1, h2, h3, h4]
        · by_cases h5 : s.to_ascii_lowercase = "silent"
          · simp [h1, h2, h3, h4, h5]
          · refine ⟨?_, fun h => absurd h h1, fun h => absurd h h2,
              fun h => absurd h h3, fun h => absurd h h4,
              fun h => absurd h h5, ?_⟩
            · simp [h1, h2, h3, h4, h5]
            · intro e he
              refine ⟨"Unknown ui: ", "", ?_⟩
              simp [h1, h2, h3, h4, h5] at he
              simp [he]

/-- Witness for C6: a case-insensitively recognized name and an unrecognized
one whose error message embeds the input. -/
theorem uitype_from_str_spec_witness :
    UIType.from_str "CURSES" = .ok .Curses ∧
    (∃ pre post : String, "Unknown ui: bogus" = pre ++ "bogus" ++ post) :=
  ⟨(uitype_from_str_spec "CURSES").2.2.2.1 (by decide),
   (uitype_from_str_spec "bogus").2.2.2.2.2.2 "Unknown ui: bogus" (by decide)⟩

/-- Modelled from the spec: the self-describing, field-tagged serialized data
model (serde's externally tagged representation produced by the derived
`Serialize`/`Deserialize` on the message union; the derived code is not part
of this repository's sources). -/
inductive JValue where
  | nat (n : Nat)
  | float (bits : Nat)
  | str (s : String)
  | obj (fields : List (String × JValue))

/-- Field-tagged serialization of the execution status indicator. -/
def ExecutionStatus.to_jvalue : ExecutionStatus → JValue
  | .Success => .str "Success"
  | .Failure reason => .obj [("Failure", .str reason)]

/-- Deserialization of the execution status indicator. -/
def ExecutionStatus.of_jvalue : JValue → Option ExecutionStatus
  | .str "Success" => some .Success
  | .obj [("Failure", .str reason)] => some (.Failure reason)
  | _ => none

/-- Field-tagged serialization of the outcome record. -/
def ExecutionResult.to_jvalue (r : ExecutionResult) : JValue :=
  .obj [("status", r.status.to_jvalue), ("resources", .nat r.resources)]

/-- Deserialization of the outcome record. -/
def ExecutionResult.of_jvalue : JValue → Option ExecutionResult
  | .obj [("status", sv), ("resources", .nat res)] =>
    (ExecutionStatus.of_jvalue sv).map fun st => ⟨st, res⟩
  | _ => none

/-- Field-tagged serialization of a lifecycle value. -/
def UIExecutionStatus.to_jvalue : UIExecutionStatus → JValue
  | .Pending => .str "Pending"
  | .Started w => .obj [("Started", .obj [("worker", .nat w)])]
  | .Done r => .obj [("Done", .obj [("result", r.to_jvalue)])]
  | .Skipped => .str "Skipped"

/-- Deserialization of a lifecycle value. -/
def UIExecutionStatus.of_jvalue : JValue → Option UIExecutionStatus
  | .str "Pending" => some .Pending
  | .str "Skipped" => some .Skipped
  | .obj [("Started", .obj [("worker", .nat w)])] => some (.Started w)
  | .obj [("Done", .obj [("result", rv)])] =>
    (ExecutionResult.of_jvalue rv).map fun r => .Done r
  | _ => none

/-- Deserialize after serialize is the identity on lifecycle values. -/
theorem uiexecutionstatus_jvalue_rt (st : UIExecutionStatus) :
    UIExecutionStatus.of_jvalue st.to_jvalue = some st := by
  cases st with
  | Pending => rfl
  | Started w => rfl
  | Done r =>
    rcases r with ⟨rs, res⟩
    cases rs <;> rfl
  | Skipped => rfl

/-- Field-tagged serialization of the executor status payload. -/
def ExecutorStatus.to_jvalue (e : ExecutorStatus) : JValue :=
  .obj [("data", .nat e.data)]

/-- Field-tagged serialization of a task description of the
subtask/testcase family. -/
def IoiTaskData.to_jvalue (t : IoiTaskData) : JValue :=
  .obj [("raw", .str t.raw)]

/-- Field-tagged serialization of a task description of the solution/seed
family. -/
def TerryTaskData.to_jvalue (t : TerryTaskData) : JValue :=
  .obj [("raw", .str t.raw)]

/-- Field-tagged serialization of a validated solution outcome. -/
def SolutionOutcome.to_jvalue (o : SolutionOutcome) : JValue :=
  .obj [("raw", .str o.raw)]

/-- Field-tagged serialization of the outcome-or-error payload (serde
serializes `Result` with `Ok`/`Err` tags). -/
def outcome_to_jvalue : Except String SolutionOutcome → JValue
  | .ok o => .obj [("Ok", o.to_jvalue)]
  | .error e => .obj [("Err", .str e)]

/-- Deserialization of the outcome-or-error payload. -/
def outcome_of_jvalue : JValue → Option (Except String SolutionOutcome)
  | .obj [("Ok", .obj [("raw", .str r)])] => some (.ok ⟨r⟩)
  | .obj [("Err", .str e)] => some (.error e)
  | _ => none

/-- Field-tagged (externally tagged) serialization of the message union, one
tag per case, struct fields by name in declaration order. -/
def UIMessage.to_jvalue : UIMessage → JValue
  | .StopUI => .str "StopUI"
  | .ServerStatus status =>
    .obj [("ServerStatus", .obj [("status", status.to_jvalue)])]
  | .Compilation file status =>
    .obj [("Compilation", .obj [("file", .str file),
      ("status", status.to_jvalue)])]
  | .CompilationStdout file content =>
    .obj [("CompilationStdout", .obj [("file", .str file),
      ("content", .str content)])]
  | .CompilationStderr file content =>
    .obj [("CompilationStderr", .obj [("file", .str file),
      ("content", .str content)])]
  | .IOITask task =>
    .obj [("IOITask", .obj [("task", task.to_jvalue)])]
  | .IOIGeneration subtask testcase status =>
    .obj [("IOIGeneration", .obj [("subtask", .nat subtask),
      ("testcase", .nat testcase), ("status", status.to_jvalue)])]
  | .IOIGenerationStderr subtask testcase content =>
    .obj [("IOIGenerationStderr", .obj [("subtask", .nat subtask),
      ("testcase", .nat testcase), ("content", .str content)])]
  | .IOIValidation subtask testcase status =>
    .obj [("IOIValidation", .obj [("subtask", .nat subtask),
      ("testcase", .nat testcase), ("status", status.to_jvalue)])]
  | .IOIValidationStderr subtask testcase content =>
    .obj [("IOIValidationStderr", .obj [("subtask", .nat subtask),
      ("testcase", .nat testcase), ("content", .str content)])]
  | .IOISolution subtask testcase status =>
    .obj [("IOISolution", .obj [("subtask", .nat subtask),
      ("testcase", .nat testcase), ("status", status.to_jvalue)])]
  | .IOIEvaluation subtask testcase solution status =>
    .obj [("IOIEvaluation", .obj [("subtask", .nat subtask),
      ("testcase", .nat testcase), ("solution", .str solution),
      ("status", status.to_jvalue)])]
  | .IOIChecker subtask testcase solution status =>
    .obj [("IOIChecker", .obj [("subtask", .nat subtask),
      ("testcase", .nat testcase), ("solution", .str solution),
      ("status", status.to_jvalue)])]
  | .IOITestcaseScore subtask testcase solution score message =>
    .obj [("IOITestcaseScore", .obj [("subtask", .nat subtask),
      ("testcase", .nat testcase), ("solution", .str solution),
      ("score", .float score.bits), ("message", .str message)])]
  | .IOISubtaskScore subtask solution normalized_score score =>
    .obj [("IOISubtaskScore", .obj [("subtask", .nat subtask),
      ("solution", .str solution),
      ("normalized_score", .float normalized_score.bits),
      ("score", .float score.bits)])]
  | .IOITaskScore solution score =>
    .obj [("IOITaskScore", .obj [("solution", .str solution),
      ("score", .float score.bits)])]
  | .IOIBooklet name status =>
    .obj [("IOIBooklet", .obj [("name", .str name),
      ("status", status.to_jvalue)])]
  | .IOIBookletDependency booklet name step num_steps status =>
    .obj [("IOIBookletDependency", .obj [("booklet", .str booklet),
      ("name", .str name), ("step", .nat step),
      ("num_steps", .nat num_steps), ("status", status.to_jvalue)])]
  | .TerryTask task =>
    .obj [("TerryTask", .obj [("task", task.to_jvalue)])]
  | .TerryGeneration solution seed status =>
    .obj [("TerryGeneration", .obj [("solution", .str solution),
      ("seed", .nat seed), ("status", status.to_jvalue)])]
  | .TerryValidation solution status =>
    .obj [("TerryValidation", .obj [("solution", .str solution),
      ("status", status.to_jvalue)])]
  | .TerrySolution solution status =>
    .obj [("TerrySolution", .obj [("solution", .str solution),
      ("status", status.to_jvalue)])]
  | .TerryChecker solution status =>
    .obj [("TerryChecker", .obj [("solution", .str solution),
      ("status", status.to_jvalue)])]
  | .TerrySolutionOutcome solution outcome =>
    .obj [("TerrySolutionOutcome", .obj [("solution", .str solution),
      ("outcome", outcome_to_jvalue outcome)])]
  | .Warning message =>
    .obj [("Warning", .obj [("message", .str message)])]

/-- Deserialization of the message union from its field-tagged form: the
exact case is reconstructed from the tag and the named fields alone, without
prior schema negotiation. -/
def UIMessage.of_jvalue : JValue → Option UIMessage
  | .str "StopUI" => some .StopUI
  | .obj [("ServerStatus", .obj [("status", .obj [("data", .nat d)])])] =>
    some (.ServerStatus ⟨d⟩)
  | .obj [("Compilation", .obj [("file", .str file), ("status", sv)])] =>
    (UIExecutionStatus.of_jvalue sv).map fun st => .Compilation file st
  | .obj [("CompilationStdout", .obj [("file", .str file),
      ("content", .str content)])] =>
    some (.CompilationStdout file content)
  | .obj [("CompilationStderr", .obj [("file", .str file),
      ("content", .str content)])] =>
    some (.CompilationStderr file content)
  | .obj [("IOITask", .obj [("task", .obj [("raw", .str raw)])])] =>
    some (.IOITask ⟨raw⟩)
  | .obj [("IOIGeneration", .obj [("subtask", .nat st), ("testcase", .nat tc),
      ("status", sv)])] =>
    (UIExecutionStatus.of_jvalue sv).map fun s => .IOIGeneration st tc s
  | .obj [("IOIGenerationStderr", .obj [("subtask", .nat st),
      ("testcase", .nat tc), ("content", .str content)])] =>
    some (.IOIGenerationStderr st tc content)
  | .obj [("IOIValidation", .obj [("subtask", .nat st), ("testcase", .nat tc),
      ("status", sv)])] =>
    (UIExecutionStatus.of_jvalue sv).map fun s => .IOIValidation st tc s
  | .obj [("IOIValidationStderr", .obj [("subtask", .nat st),
      ("testcase", .nat tc), ("content", .str content)])] =>
    some (.IOIValidationStderr st tc content)
  | .obj [("IOISolution", .obj [("subtask", .nat st), ("testcase", .nat tc),
      ("status", sv)])] =>
    (UIExecutionStatus.of_jvalue sv).map fun s => .IOISolution st tc s
  | .obj [("IOIEvaluation", .obj [("subtask", .nat st), ("testcase", .nat tc),
      ("solution", .str sol), ("status", sv)])] =>
    (UIExecutionStatus.of_jvalue sv).map fun s => .IOIEvaluation st tc sol s
  | .obj [("IOIChecker", .obj [("subtask", .nat st), ("testcase", .nat tc),
      ("solution", .str sol), ("status", sv)])] =>
    (UIExecutionStatus.of_jvalue sv).map fun s => .IOIChecker st tc sol s
  | .obj [("IOITestcaseScore", .obj [("subtask", .nat st),
      ("testcase", .nat tc), ("solution", .str sol),
      ("score", .float sc), ("message", .str msg)])] =>
    some (.IOITestcaseScore st tc sol ⟨sc⟩ msg)
  | .obj [("IOISubtaskScore", .obj [("subtask", .nat st),
      ("solution", .str sol), ("normalized_score", .float ns),
      ("score", .float sc)])] =>
    some (.IOISubtaskScore st sol ⟨ns⟩ ⟨sc⟩)
  | .obj [("IOITaskScore", .obj [("solution", .str sol),
      ("score", .float sc)])] =>
    some (.IOITaskScore sol ⟨sc⟩)
  | .obj [("IOIBooklet", .obj [("name", .str name), ("status", sv)])] =>
    (UIExecutionStatus.of_jvalue sv).map fun s => .IOIBooklet name s
  | .obj [("IOIBookletDependency", .obj [("booklet", .str bk),
      ("name", .str name), ("step", .nat step), ("num_steps", .nat ns),
      ("status", sv)])] =>
    (UIExecutionStatus.of_jvalue sv).map fun s =>
      .IOIBookletDependency bk name step ns s
  | .obj [("TerryTask", .obj [("task", .obj [("raw", .str raw)])])] =>
    some (.TerryTask ⟨raw⟩)
  | .obj [("TerryGeneration", .obj [("solution", .str sol), ("seed", .nat sd),
      ("status", sv)])] =>
    (UIExecutionStatus.of_jvalue sv).map fun s => .TerryGeneration sol sd s
  | .obj [("TerryValidation", .obj [("solution", .str sol),
      ("status", sv)])] =>
    (UIExecutionStatus.of_jvalue sv).map fun s => .TerryValidation sol s
  | .obj [("TerrySolution", .obj [("solution", .str sol), ("status", sv)])] =>
    (UIExecutionStatus.of_jvalue sv).map fun s => .TerrySolution sol s
  | .obj [("TerryChecker", .obj [("solution", .str sol), ("status", sv)])] =>
    (UIExecutionStatus.of_jvalue sv).map fun s => .TerryChecker sol s
  | .obj [("TerrySolutionOutcome", .obj [("solution", .str sol),
      ("outcome", ov)])] =>
    (outcome_of_jvalue ov).map fun oc => .TerrySolutionOutcome sol oc
  | .obj [("Warning", .obj [("message", .str msg)])] =>
    some (.Warning msg)
  | _ => none

/-- C8 (amended): deserializing the field-tagged serialization of any value
of the message union — any of its 25 cases, with its embedded lifecycle
value, coordinates and payloads — yields back the identical value. -/
theorem uimessage_serde_round_trip (m : UIMessage) :
    UIMessage.of_jvalue m.to_jvalue = some m := by
  cases m <;> try rfl
  all_goals
    rename_i st
    rcases st with _ | w | ⟨rs, res⟩ | _ <;>
      first
      | rfl
      | (cases rs <;> rfl)

/-- The tags of the cases of the message union, one constructor per case of
`UIMessage`. -/
inductive UIMessageCase where
  | StopUI
  | ServerStatus
  | Compilation
  | CompilationStdout
  | CompilationStderr
  | IOITask
  | IOIGeneration
  | IOIGenerationStderr
  | IOIValidation
  | IOIValidationStderr
  | IOISolution
  | IOIEvaluation
  | IOIChecker
  | IOITestcaseScore
  | IOISubtaskScore
  | IOITaskScore
  | IOIBooklet
  | IOIBookletDependency
  | TerryTask
  | TerryGeneration
  | TerryValidation
  | TerrySolution
  | TerryChecker
  | TerrySolutionOutcome
  | Warning
deriving DecidableEq, Fintype, Repr

/-- The case tag of a message. -/
def UIMessage.case : UIMessage → UIMessageCase
  | .StopUI => .StopUI
  | .ServerStatus _ => .ServerStatus
  | .Compilation _ _ => .Compilation
  | .CompilationStdout _ _ => .CompilationStdout
  | .CompilationStderr _ _ => .CompilationStderr
  | .IOITask _ => .IOITask
  | .IOIGeneration _ _ _ => .IOIGeneration
  | .IOIGenerationStderr _ _ _ => .IOIGenerationStderr
  | .IOIValidation _ _ _ => .IOIValidation
  | .IOIValidationStderr _ _ _ => .IOIValidationStderr
  | .IOISolution _ _ _ => .IOISolution
  | .IOIEvaluation _ _ _ _ => .IOIEvaluation
  | .IOIChecker _ _ _ _ => .IOIChecker
  | .IOITestcaseScore _ _ _ _ _ => .IOITestcaseScore
  | .IOISubtaskScore _ _ _ _ => .IOISubtaskScore
  | .IOITaskScore _ _ => .IOITaskScore
  | .IOIBooklet _ _ => .IOIBooklet
  | .IOIBookletDependency _ _ _ _ _ => .IOIBookletDependency
  | .TerryTask _ => .TerryTask
  | .TerryGeneration _ _ _ => .TerryGeneration
  | .TerryValidation _ _ => .TerryValidation
  | .TerrySolution _ _ => .TerrySolution
  | .TerryChecker _ _ => .TerryChecker
  | .TerrySolutionOutcome _ _ => .TerrySolutionOutcome
  | .Warning _ => .Warning

/-- A representative message for each case tag. -/
def UIMessageCase.sample : UIMessageCase → UIMessage
  | .StopUI => .StopUI
  | .ServerStatus => .ServerStatus ⟨0⟩
  | .Compilation => .Compilation "" .Pending
  | .CompilationStdout => .CompilationStdout "" ""
  | .CompilationStderr => .CompilationStderr "" ""
  | .IOITask => .IOITask ⟨""⟩
  | .IOIGeneration => .IOIGeneration 0 0 .Pending
  | .IOIGenerationStderr => .IOIGenerationStderr 0 0 ""
  | .IOIValidation => .IOIValidation 0 0 .Pending
  | .IOIValidationStderr => .IOIValidationStderr 0 0 ""
  | .IOISolution => .IOISolution 0 0 .Pending
  | .IOIEvaluation => .IOIEvaluation 0 0 "" .Pending
  | .IOIChecker => .IOIChecker 0 0 "" .Pending
  | .IOITestcaseScore => .IOITestcaseScore 0 0 "" ⟨0⟩ ""
  | .IOISubtaskScore => .IOISubtaskScore 0 "" ⟨0⟩ ⟨0⟩
  | .IOITaskScore => .IOITaskScore "" ⟨0⟩
  | .IOIBooklet => .IOIBooklet "" .Pending
  | .IOIBookletDependency => .IOIBookletDependency "" "" 0 0 .Pending
  | .TerryTask => .TerryTask ⟨""⟩
  | .TerryGeneration => .TerryGeneration "" 0 .Pending
  | .TerryValidation => .TerryValidation "" .Pending
  | .TerrySolution => .TerrySolution "" .Pending
  | .TerryChecker => .TerryChecker "" .Pending
  | .TerrySolutionOutcome => .TerrySolutionOutcome "" (.ok ⟨""⟩)
  | .Warning => .Warning ""

/-- Each case tag is realized by its representative message. -/
theorem uimessage_case_sample (c : UIMessageCase) :
    UIMessage.case c.sample = c := by
  cases c <;> rfl

/-- Counterexample for C8 as stated: the message union has exactly 25 cases
(every case tag is realized by a message), not 26. -/
theorem uimessage_case_count_is_25_not_26 :
    Fintype.card UIMessageCase = 25 ∧
    Fintype.card UIMessageCase ≠ 26 ∧
    Set.range UIMessage.case = Set.univ := by
  refine ⟨by decide, by decide, ?_⟩
  exact Set.eq_univ_of_forall fun c => ⟨c.sample, uimessage_case_sample c⟩
